import Mathlib

/-!
Shallow embedding of the Catalog Diff & Notification Fan-out Engine of
`server.js` (growagargen-server).  JavaScript `Map`s are modelled as
insertion-ordered association lists, optional / possibly-missing fields as
`Option`, JS string truthiness (`undefined`, `null` and `""` are falsy) by
`truthyS`, and timestamps (`Date.now()` milliseconds) as `Nat`.
Network and push-gateway effects are abstracted: fetch outcomes become an
explicit input (`StockFetchOutcome`) and a "sent notification" is the record
the code hands to the push gateway.
-/

namespace GrowAGarden

/-! ### JS-semantics helpers -/

/-- JS truthiness of an optional string: `undefined`/`null` and `""` are falsy. -/
def truthyS : Option String → Bool
  | none => false
  | some s => !(s == "")

/-- JS `a || b` on optional strings (left operand kept when truthy). -/
def jsOrS (a b : Option String) : Option String :=
  if truthyS a then a else b

/-- JS `Map.get` on an insertion-ordered association list. -/
def mapGet {α : Type} : List (String × α) → String → Option α
  | [], _ => none
  | (k', v) :: rest, k => if k' = k then some v else mapGet rest k

/-- JS `Map.set`: update in place when the key exists, else append. -/
def mapSet {α : Type} : List (String × α) → String → α → List (String × α)
  | [], k, v => [(k, v)]
  | (k', v') :: rest, k, v =>
      if k' = k then (k, v) :: rest else (k', v') :: mapSet rest k v

/-- String comparison used for JS `Array.prototype.sort()` on item names. -/
def strLe (a b : String) : Bool := decide (a ≤ b)

/-- Insert into a sorted list of strings. -/
def insertSorted (a : String) : List String → List String
  | [] => [a]
  | b :: rest => if strLe a b then a :: b :: rest else b :: insertSorted a rest

/-- Sort a list of strings (models `itemNames.sort()`). -/
def sortStrings : List String → List String
  | [] => []
  | a :: rest => insertSorted a (sortStrings rest)

/-! ### Rarity classification (`getItemRarity`, `getRarityInfo`, lines 1131-1216) -/

def commonItems : List String :=
  ["Carrot", "Strawberry", "Watering Can", "Cleaning Spray", "Trowel"]

def uncommonItems : List String :=
  ["Blueberry", "Orange Tulip", "Recall Wrench"]

def rareItems : List String :=
  ["Tomato", "Daffodil", "Basic Sprinkler"]

def legendaryItems : List String :=
  ["Watermelon", "Pumpkin", "Apple", "Bamboo", "Advanced Sprinkler"]

def mythicalItems : List String :=
  ["Coconut", "Cactus", "Dragon Fruit", "Mango", "Godly Sprinkler", "Magnifying Glass",
   "Tanning Mirror"]

def divineItems : List String :=
  ["Grape", "Mushroom", "Pepper", "Cacao", "Master Sprinkler", "Favorite Tool",
   "Harvest Tool", "Friendship Pot"]

def prismaticItems : List String :=
  ["Beanstalk", "Ember Lily", "Sugar Apple", "Burning Bud"]

/-- Model of `getItemRarity`: static name-based classification, defaulting to `"Rare"`. -/
def getItemRarity (itemName : String) : String :=
  if commonItems.contains itemName then "Common"
  else if uncommonItems.contains itemName then "Uncommon"
  else if rareItems.contains itemName then "Rare"
  else if legendaryItems.contains itemName then "Legendary"
  else if mythicalItems.contains itemName then "Mythical"
  else if divineItems.contains itemName then "Divine"
  else if prismaticItems.contains itemName then "Prismatic"
  else "Rare"

structure RarityInfo where
  emoji : String
  shouldNotify : Bool
  tier : Nat
deriving DecidableEq, Repr

/-- Model of `getRarityInfo`: per-tier notification flag; unknown tiers default to the Rare entry. -/
def getRarityInfo (rarity : String) : RarityInfo :=
  if rarity = "Common" then ⟨"🌱", false, 1⟩
  else if rarity = "Uncommon" then ⟨"🌿", true, 2⟩
  else if rarity = "Rare" then ⟨"🌸", true, 3⟩
  else if rarity = "Legendary" then ⟨"🌟", true, 4⟩
  else if rarity = "Mythical" then ⟨"🔥", true, 5⟩
  else if rarity = "Divine" then ⟨"✨", true, 6⟩
  else if rarity = "Prismatic" then ⟨"🌈", true, 7⟩
  else ⟨"🌸", true, 3⟩

/-- Model of `shouldSendNotificationForItem` (line 1340). -/
def shouldSendNotificationForItem (itemName : String) : Bool :=
  (getRarityInfo (getItemRarity itemName)).shouldNotify

/-- Names listed in `isPremiumSeed` (line 1099): the tier explicitly marked for individual treatment. -/
def premiumSeedList : List String := ["Pepper", "Ember Lily"]

def isPremiumSeed (itemName : String) : Bool :=
  premiumSeedList.contains itemName

/-! ### Rarity resolution (`getRarityOverride`, `processStockData`, `addAlwaysShownItems`) -/

/-- Model of `getRarityOverride` (line 96): `rarityFixes.get(itemId) || null`. -/
def getRarityOverride (rarityFixes : List (String × String)) (itemId : Option String) :
    Option String :=
  jsOrS (itemId.bind (mapGet rarityFixes)) none

/-- Rarity assigned by every `processStockData` branch (e.g. lines 495-499):
`rarityOverride || apiRarity || hardcodedRarity` with
`hardcodedRarity = getItemRarity(display_name)`. -/
def resolveStockRarity (rarityFixes : List (String × String)) (itemId : Option String)
    (apiRarity : Option String) (displayName : String) : Option String :=
  jsOrS (jsOrS (getRarityOverride rarityFixes itemId) apiRarity)
    (some (getItemRarity displayName))

/-- Rarity assigned by `addAlwaysShownItems` (line 133):
`rarityOverride || itemInfo.rarity || null` — no static-table or default fallback. -/
def resolveAlwaysShownRarity (rarityFixes : List (String × String)) (itemId : String)
    (apiRarity : Option String) : Option String :=
  jsOrS (jsOrS (getRarityOverride rarityFixes (some itemId)) apiRarity) none

/-- The resolution order stated by the specification: explicit override keyed by
`itemId` when one exists, else the upstream rarity when non-empty, else the static
name-based table's tier, else the default tier `Rare` (the last two are exactly
`getItemRarity`). -/
def specResolveRarity (rarityFixes : List (String × String)) (itemId : Option String)
    (apiRarity : Option String) (displayName : String) : String :=
  match itemId.bind (mapGet rarityFixes) with
  | some r => r
  | none =>
      match apiRarity with
      | some r => if r = "" then getItemRarity displayName else r
      | none => getItemRarity displayName

/-! ### Stock data model and the deduplication cache -/

structure StockItem where
  quantity : Nat
  category : String
  displayName : String
  itemId : Option String
  originalName : Option String
  rarity : Option String
deriving DecidableEq, Repr

abbrev StockMap := List (String × StockItem)

/-- An item pushed onto `restockedItems` by `checkStockChanges` (lines 835-841). -/
structure RestockedItem where
  name : String
  quantity : Nat
  previousQuantity : Nat
  rarity : String
  rarityEmoji : String
deriving DecidableEq, Repr

/-- A restocked item after `sendStockNotifications` re-attaches the category and
recomputes the rarity (lines 1371-1381). -/
structure UserRestockedItem where
  name : String
  quantity : Nat
  previousQuantity : Nat
  rarity : String
  category : String
deriving DecidableEq, Repr

/-- Constant `DEDUPLICATION_WINDOW` (line 28): 5 minutes in milliseconds. -/
def DEDUPLICATION_WINDOW : Nat := 5 * 60 * 1000

/-- Per-device map: deduplication key → last-sent timestamp. -/
abbrev UserNotifs := List (String × Nat)

/-- Shape of `recentNotifications` (line 27): device token → per-device map. -/
abbrev DedupCache := List (String × UserNotifs)

/-- The deduplication key of `sendCategoryNotification` (lines 1500-1501):
category, a dash, then the sorted item names joined with commas. -/
def categoryDedupKey (category : String) (itemNames : List String) : String :=
  category ++ "-" ++ String.intercalate "," (sortStrings itemNames)

/-- What the engine hands to the push gateway. -/
inductive NotifKind
  | categoryStock
  | premiumSeed
  | weatherActive
  | weatherEnded
  | eventReminder
deriving DecidableEq, Repr

structure SentNotification where
  kind : NotifKind
  device : String
  names : List String
  badge : Nat
deriving DecidableEq, Repr

/-- Lines 1505-1507: ensure the outer map has an entry for the device. -/
def ensureDevice (cache : DedupCache) (deviceToken : String) : DedupCache :=
  if (mapGet cache deviceToken).isSome then cache else mapSet cache deviceToken []

/-- Lines 1518-1527: purge the device's entries older than twice the window,
then record the send under the deduplication key. -/
def recordCategorySend (cache1 : DedupCache) (deviceToken dedupKey : String)
    (now : Nat) : DedupCache :=
  mapSet cache1 deviceToken
    (mapSet (((mapGet cache1 deviceToken).getD []).filter
        (fun e => !(e.2 < now - 2 * DEDUPLICATION_WINDOW)))
      dedupKey now)

/-- Model of `sendCategoryNotification` (lines 1498-1577): the deduplication
gate (suppress when the key was sent less than a window ago), the opportunistic
purge, the recording of the send, and the composed grouped notification.
Returns `none` when suppressed. -/
def sendCategoryNotification (cache : DedupCache) (deviceToken category : String)
    (items : List UserRestockedItem) (now : Nat) :
    Option SentNotification × DedupCache :=
  if ((mapGet ((mapGet (ensureDevice cache deviceToken) deviceToken).getD [])
        (categoryDedupKey category (items.map (·.name)))).any
      (fun lastSent => now - lastSent < DEDUPLICATION_WINDOW)) then
    (none, ensureDevice cache deviceToken)
  else
    (some { kind := .categoryStock, device := deviceToken,
            names := items.map (·.name), badge := items.length },
     recordCategorySend (ensureDevice cache deviceToken) deviceToken
       (categoryDedupKey category (items.map (·.name))) now)

/-! ### Stock change detection (`checkStockChanges`, lines 764-894) -/

/-- The per-favorite decision of `checkStockChanges` (lines 791-849): rarity
filter first (Common never notifies), then — in restock mode as well as in
availability mode — notify whenever `currentQuantity > 0`, regardless of
`previousQuantity`. -/
def stockChangeDecision (checkAvailability : Bool)
    (stockItems previousStockItems : StockMap) (favoriteItem : String) :
    Option RestockedItem :=
  let currentData := mapGet stockItems favoriteItem
  let currentQuantity := (currentData.map (·.quantity)).getD 0
  let previousQuantity := ((mapGet previousStockItems favoriteItem).map (·.quantity)).getD 0
  let rarity := getItemRarity favoriteItem
  if !(shouldSendNotificationForItem favoriteItem) then none
  else
    let shouldNotify :=
      if checkAvailability then currentQuantity > 0 else currentQuantity > 0
    if shouldNotify then
      let displayName :=
        (jsOrS (currentData.bind (·.originalName)) (some favoriteItem)).getD favoriteItem
      some { name := displayName, quantity := currentQuantity,
             previousQuantity := previousQuantity, rarity := rarity,
             rarityEmoji := (getRarityInfo rarity).emoji }
    else none

/-- Model of `[...new Set(userFavorites)]`: deduplicate keeping first occurrences. -/
def uniqueList (seen : List String) : List String → List String
  | [] => []
  | x :: xs =>
      if seen.contains x then uniqueList seen xs
      else x :: uniqueList (x :: seen) xs

/-- The `restockedItems` list built by `checkStockChanges` over the unique
favourite names. -/
def restockedItemsFor (checkAvailability : Bool)
    (stockItems previousStockItems : StockMap) (uniqueFavorites : List String) :
    List RestockedItem :=
  uniqueFavorites.filterMap (stockChangeDecision checkAvailability stockItems previousStockItems)

/-! ### Device registry (registration endpoint, lines 1842-1862) -/

structure NotificationSettings where
  enabled : Option Bool
  sound : Option Bool
deriving DecidableEq, Repr

structure WeatherNotificationSettings where
  enabled : Option Bool
  mode : Option String
deriving DecidableEq, Repr

structure EventNotificationSettings where
  enabled : Option Bool
  reminder_minutes : Option Nat
  sound : Option String
deriving DecidableEq, Repr

structure UserData where
  favorite_items : List String
  favorite_weather_events : List String
  notification_settings : Option NotificationSettings
  weatherNotificationSettings : Option WeatherNotificationSettings
  eventNotificationSettings : Option EventNotificationSettings
deriving DecidableEq, Repr

/-- The master gate `userData.notification_settings?.enabled` used at
lines 969, 1365 (missing settings or a missing flag are falsy). -/
def notificationsEnabled (userData : UserData) : Bool :=
  (userData.notification_settings.bind (·.enabled)).getD false

/-! ### Stock notification fan-out (`sendStockNotifications`, lines 1347-1436) -/

/-- The user's matching restocked favourites with category and recomputed
rarity attached (lines 1371-1381). -/
def userRestockedItemsFor (userData : UserData) (restockedItems : List RestockedItem)
    (stockItems : StockMap) : List UserRestockedItem :=
  (restockedItems.filter (fun item => userData.favorite_items.contains item.name)).map
    (fun item =>
      { name := item.name, quantity := item.quantity,
        previousQuantity := item.previousQuantity,
        category := (jsOrS ((mapGet stockItems item.name).map (·.category))
                      (some "unknown")).getD "unknown",
        rarity := getItemRarity item.name })

/-- Model of `sendPremiumSeedNotification` (lines 1581-1621): one individual notification,
badge 1; it never consults the deduplication cache. -/
def sendPremiumSeedNotification (deviceToken : String) (item : UserRestockedItem) :
    SentNotification :=
  { kind := .premiumSeed, device := deviceToken, names := [item.name], badge := 1 }

/-- The `reduce` at lines 1407-1414: group by `category`, keeping first-seen
category order and per-category item order. -/
def groupByCategory (items : List UserRestockedItem) :
    List (String × List UserRestockedItem) :=
  items.foldl
    (fun groups item =>
      match mapGet groups item.category with
      | some existing => mapSet groups item.category (existing ++ [item])
      | none => groups ++ [(item.category, [item])])
    []

/-- The category-send loop at lines 1419-1428, threading the deduplication
cache through the per-category sends. -/
def categorySendFold (deviceToken : String) (now : Nat)
    (groups : List (String × List UserRestockedItem))
    (acc : List SentNotification × DedupCache) : List SentNotification × DedupCache :=
  groups.foldl
    (fun acc entry =>
      let r := sendCategoryNotification acc.2 deviceToken entry.1 entry.2 now
      (acc.1 ++ r.1.toList, r.2))
    acc

/-- The per-user body of `sendStockNotifications` (lines 1360-1429): master
enabled gate, favourites intersection, the partition `rarity === 'Common'`
(individual sends) versus the rest (grouped per category through the
deduplication gate). -/
def sendStockNotificationsForUser (cache : DedupCache) (deviceToken : String)
    (userData : UserData) (restockedItems : List RestockedItem)
    (stockItems : StockMap) (now : Nat) : List SentNotification × DedupCache :=
  if !(notificationsEnabled userData) then ([], cache)
  else
    let userRestockedItems := userRestockedItemsFor userData restockedItems stockItems
    if userRestockedItems.isEmpty then ([], cache)
    else
      let premiumSeeds := userRestockedItems.filter (fun item => item.rarity == "Common")
      let regularItems := userRestockedItems.filter (fun item => !(item.rarity == "Common"))
      let premiumNotifs := premiumSeeds.map (sendPremiumSeedNotification deviceToken)
      let folded := categorySendFold deviceToken now (groupByCategory regularItems)
        (([] : List SentNotification), cache)
      (premiumNotifs ++ folded.1, folded.2)

/-! ### Weather change detection and fan-out (lines 897-1096) -/

structure WeatherInfo where
  weatherName : String
  active : Bool
  duration : Nat
deriving DecidableEq, Repr

abbrev WeatherMap := List (String × WeatherInfo)

structure WeatherChange where
  weatherId : String
  weatherName : String
  isActive : Bool
  wasActive : Bool
  duration : Nat
deriving DecidableEq, Repr

/-- The `weatherChanges` list built by `checkWeatherChanges` (lines 907-945):
first every id in the current snapshot whose `active` flag is new or changed
(in current-snapshot order), then every id that was active in the previous
snapshot but is absent from the current one. -/
def checkWeatherChangesList (weatherData previousWeatherData : WeatherMap) :
    List WeatherChange :=
  (weatherData.filterMap (fun e =>
    match mapGet previousWeatherData e.1 with
    | none =>
        some { weatherId := e.1, weatherName := e.2.weatherName,
               isActive := e.2.active, wasActive := false, duration := e.2.duration }
    | some previousWeather =>
        if previousWeather.active ≠ e.2.active then
          some { weatherId := e.1, weatherName := e.2.weatherName,
                 isActive := e.2.active, wasActive := previousWeather.active,
                 duration := e.2.duration }
        else none))
  ++ previousWeatherData.filterMap (fun e =>
    if (mapGet weatherData e.1).isNone && e.2.active then
      some { weatherId := e.1, weatherName := e.2.weatherName,
             isActive := false, wasActive := true, duration := 0 }
    else none)

/-- The grouped sends at lines 1013-1039: one notification for the active
changes (sent first), then one for the ended changes. -/
def weatherSendPair (deviceToken : String) (relevantWeatherChanges : List WeatherChange) :
    List SentNotification :=
  let activeWeather := relevantWeatherChanges.filter (·.isActive)
  let inactiveWeather := relevantWeatherChanges.filter (fun w => !w.isActive)
  (if activeWeather.length > 0 then
    [{ kind := .weatherActive, device := deviceToken,
       names := activeWeather.map (·.weatherName), badge := activeWeather.length }]
   else [])
  ++ (if inactiveWeather.length > 0 then
    [{ kind := .weatherEnded, device := deviceToken,
       names := inactiveWeather.map (·.weatherName), badge := inactiveWeather.length }]
   else [])

/-- The per-user body of `sendWeatherNotifications` (lines 968-1040): master
enabled gate, the weather-specific `enabled !== false` gate, the
`mode === 'favorites'` filtering, then the grouped active/ended sends. -/
def sendWeatherNotificationsForUser (deviceToken : String) (userData : UserData)
    (weatherChanges : List WeatherChange) : List SentNotification :=
  if !(notificationsEnabled userData) then []
  else
    let weatherSettings := userData.weatherNotificationSettings
    let weatherEnabled := (weatherSettings.bind (·.enabled)) ≠ some false
    let weatherMode := (jsOrS (weatherSettings.bind (·.mode)) (some "all")).getD "all"
    if !weatherEnabled then []
    else if weatherMode = "favorites" then
      let userWeatherFavorites := userData.favorite_weather_events
      if userWeatherFavorites.isEmpty then []
      else
        let relevantWeatherChanges :=
          weatherChanges.filter (fun change => userWeatherFavorites.contains change.weatherId)
        if relevantWeatherChanges.isEmpty then []
        else weatherSendPair deviceToken relevantWeatherChanges
    else weatherSendPair deviceToken weatherChanges

/-! ### Event notifications (lines 3253-3377) -/

structure EventInfo where
  name : String
  correctedMinute : Nat
deriving DecidableEq, Repr

/-- The `shouldCheck` disjunction of `checkEventNotifications` (lines 3265-3278):
the event minute or one of the fixed lead offsets, within the first 30 seconds. -/
def shouldCheckEvent (eventMinute currentMinute currentSecond : Nat) : Bool :=
  (currentMinute == eventMinute && currentSecond ≤ 30) ||
  (currentMinute == (eventMinute + 60 - 1) % 60 && currentSecond ≤ 30) ||
  (currentMinute == (eventMinute + 60 - 2) % 60 && currentSecond ≤ 30) ||
  (currentMinute == (eventMinute + 60 - 5) % 60 && currentSecond ≤ 30) ||
  (currentMinute == (eventMinute + 60 - 10) % 60 && currentSecond ≤ 30) ||
  (currentMinute == (eventMinute + 60 - 15) % 60 && currentSecond ≤ 30)

/-- The `minutesBefore` computation (lines 3285-3288), with the hour wrap-around
adjustment. -/
def minutesBeforeEvent (eventMinute currentMinute : Nat) : Nat :=
  let mb := (eventMinute + 60 - currentMinute) % 60
  if mb > 30 then 60 - mb else mb

/-- The minute-of-hour part of the `shouldCheck` disjunction, with the
30-second condition factored out. -/
def eventMinuteMatches (eventMinute currentMinute : Nat) : Bool :=
  (currentMinute == eventMinute) ||
  (currentMinute == (eventMinute + 60 - 1) % 60) ||
  (currentMinute == (eventMinute + 60 - 2) % 60) ||
  (currentMinute == (eventMinute + 60 - 5) % 60) ||
  (currentMinute == (eventMinute + 60 - 10) % 60) ||
  (currentMinute == (eventMinute + 60 - 15) % 60)

/-- Model of `userWantsThisReminder` (lines 3317-3324). -/
def userWantsThisReminder (reminderMinutes minutesBefore : Nat) : Bool :=
  (reminderMinutes == 0 && minutesBefore == 0) ||
  (reminderMinutes == 1 && minutesBefore == 1) ||
  (reminderMinutes == 2 && minutesBefore == 2) ||
  (reminderMinutes == 5 && minutesBefore == 5) ||
  (reminderMinutes == 10 && minutesBefore == 10) ||
  (reminderMinutes == 15 && minutesBefore == 15)

/-- Model of `sendEventNotificationForUser` (lines 3304-3377): only the event-specific
settings are consulted (`enabled ?? true`, `reminder_minutes ?? 0`) — the master
`notification_settings.enabled` flag is never read on this path. -/
def sendEventNotificationForUser (deviceToken : String) (userData : UserData)
    (event : EventInfo) (minutesBefore : Nat) : Option SentNotification :=
  let eventSettings := userData.eventNotificationSettings
  let reminderEnabled := (eventSettings.bind (·.enabled)).getD true
  let reminderMinutes := (eventSettings.bind (·.reminder_minutes)).getD 0
  if !reminderEnabled then none
  else if !(userWantsThisReminder reminderMinutes minutesBefore) then none
  else some { kind := .eventReminder, device := deviceToken,
              names := [event.name], badge := 1 }

/-- Model of `checkEventNotifications` (lines 3254-3301). -/
def checkEventNotifications (currentEvent : Option EventInfo)
    (users : List (String × UserData)) (currentMinute currentSecond : Nat) :
    List SentNotification :=
  match currentEvent with
  | none => []
  | some event =>
      if users.length == 0 then []
      else
        let eventMinute := event.correctedMinute
        if !(shouldCheckEvent eventMinute currentMinute currentSecond) then []
        else
          let minutesBefore := minutesBeforeEvent eventMinute currentMinute
          users.filterMap (fun u => sendEventNotificationForUser u.1 u.2 event minutesBefore)

/-! ### Fetch failure handling and the snapshot swap (lines 185-244, 1670-1699) -/

/-- Model of `createMockStockData` (lines 692-761), the last-resort fallback. -/
def mockStockEntry (name category : String) (quantity : Nat) (isEgg : Bool) :
    String × StockItem :=
  (name, { quantity := quantity, category := category, displayName := name,
           itemId := none, originalName := if isEgg then some name else none,
           rarity := none })

def createMockStockData : StockMap :=
  [mockStockEntry "Carrot" "seeds" 12 false, mockStockEntry "Strawberry" "seeds" 9 false,
   mockStockEntry "Blueberry" "seeds" 7 false, mockStockEntry "Orange Tulip" "seeds" 8 false,
   mockStockEntry "Tomato" "seeds" 5 false, mockStockEntry "Corn" "seeds" 6 false,
   mockStockEntry "Daffodil" "seeds" 6 false, mockStockEntry "Watermelon" "seeds" 6 false,
   mockStockEntry "Pumpkin" "seeds" 4 false, mockStockEntry "Apple" "seeds" 3 false,
   mockStockEntry "Bamboo" "seeds" 8 false, mockStockEntry "Coconut" "seeds" 3 false,
   mockStockEntry "Cactus" "seeds" 2 false, mockStockEntry "Dragon Fruit" "seeds" 1 false,
   mockStockEntry "Mango" "seeds" 4 false, mockStockEntry "Grape" "seeds" 5 false,
   mockStockEntry "Mushroom" "seeds" 2 false, mockStockEntry "Pepper" "seeds" 3 false,
   mockStockEntry "Cacao" "seeds" 4 false, mockStockEntry "Beanstalk" "seeds" 1 false,
   mockStockEntry "Ember Lily" "seeds" 2 false, mockStockEntry "Sugar Apple" "seeds" 3 false,
   mockStockEntry "Burning Bud" "seeds" 2 false, mockStockEntry "Avocado" "seeds" 2 false,
   mockStockEntry "Watering Can" "gear" 4 false, mockStockEntry "Trowel" "gear" 2 false,
   mockStockEntry "Recall Wrench" "gear" 1 false, mockStockEntry "Basic Sprinkler" "gear" 2 false,
   mockStockEntry "Advanced Sprinkler" "gear" 1 false, mockStockEntry "Godly Sprinkler" "gear" 0 false,
   mockStockEntry "Magnifying Glass" "gear" 1 false, mockStockEntry "Tanning Mirror" "gear" 0 false,
   mockStockEntry "Master Sprinkler" "gear" 0 false, mockStockEntry "Cleaning Spray" "gear" 3 false,
   mockStockEntry "Favorite Tool" "gear" 0 false, mockStockEntry "Harvest Tool" "gear" 0 false,
   mockStockEntry "Friendship Pot" "gear" 0 false,
   mockStockEntry "Common Egg" "eggs" 5 true, mockStockEntry "Uncommon Egg" "eggs" 3 true,
   mockStockEntry "Rare Egg" "eggs" 1 true, mockStockEntry "Legendary Egg" "eggs" 1 true,
   mockStockEntry "Bee Egg" "eggs" 3 true, mockStockEntry "Bug Egg" "eggs" 2 true,
   mockStockEntry "Common Summer Egg" "eggs" 4 true, mockStockEntry "Rare Summer Egg" "eggs" 1 true,
   mockStockEntry "Paradise Summer Egg" "eggs" 0 true, mockStockEntry "Paradise Egg" "eggs" 1 true]

/-- Outcome of the upstream stock fetch, abstracting the network: a successful
response (already processed by `processStockData`), a 401/403 auth failure,
any thrown/aborted fetch, or a missing API key. -/
inductive StockFetchOutcome
  | ok (processed : StockMap)
  | authFailure
  | fetchError
  | noApiKey
deriving DecidableEq, Repr

/-- Model of `fetchRealStockData` (lines 185-244): on a 401/403 or on any error, keep a
copy of the existing non-empty stock; otherwise fall back to mock data. -/
def fetchRealStockData (outcome : StockFetchOutcome) (stockItems : StockMap) : StockMap :=
  match outcome with
  | .ok processed => processed
  | .noApiKey => createMockStockData
  | .authFailure => if stockItems.length > 0 then stockItems else createMockStockData
  | .fetchError => if stockItems.length > 0 then stockItems else createMockStockData

structure EngineState where
  stockItems : StockMap
  previousStockItems : StockMap
  weatherData : WeatherMap
  previousWeatherData : WeatherMap
deriving DecidableEq, Repr

/-- The snapshot swap of `updateStockData` (lines 1670-1683): previous snapshots
become copies of the current ones, then the fetch results replace the current. -/
def updateStockDataSwap (state : EngineState) (outcome : StockFetchOutcome)
    (newWeatherData : WeatherMap) : EngineState :=
  { previousStockItems := state.stockItems,
    previousWeatherData := state.weatherData,
    stockItems := fetchRealStockData outcome state.stockItems,
    weatherData := newWeatherData }

/-- One notification-dispatch pass over all registered devices, sequencing the
stock fan-out (which threads `recentNotifications`), the weather fan-out and the
event check exactly as `updateStockData` does (lines 1686-1692); only the stock
category sends ever touch the deduplication cache. -/
def dispatchCycle (cache : DedupCache) (users : List (String × UserData))
    (restockedItems : List RestockedItem) (stockItems : StockMap)
    (weatherChanges : List WeatherChange) (currentEvent : Option EventInfo)
    (currentMinute currentSecond now : Nat) : List SentNotification × DedupCache :=
  let stockFolded := users.foldl
    (fun acc u =>
      let r := sendStockNotificationsForUser acc.2 u.1 u.2 restockedItems stockItems now
      (acc.1 ++ r.1, r.2))
    (([] : List SentNotification), cache)
  let weatherOut := users.flatMap
    (fun u => sendWeatherNotificationsForUser u.1 u.2 weatherChanges)
  let eventOut := checkEventNotifications currentEvent users currentMinute currentSecond
  (stockFolded.1 ++ weatherOut ++ eventOut, stockFolded.2)

/-! ### Concrete example data -/

/-- A stock entry with only the notification-relevant fields populated. -/
def exStockItem (name category : String) (quantity : Nat) : StockItem :=
  { quantity := quantity, category := category, displayName := name,
    itemId := none, originalName := none, rarity := none }

def carrotStock3 : StockMap := [("Carrot", exStockItem "Carrot" "seeds" 3)]

def carrotStock5 : StockMap := [("Carrot", exStockItem "Carrot" "seeds" 5)]

def carrotStock0 : StockMap := [("Carrot", exStockItem "Carrot" "seeds" 0)]

def appleStock3 : StockMap := [("Apple", exStockItem "Apple" "seeds" 3)]

def pepperStockMap : StockMap := [("Pepper", exStockItem "Pepper" "seeds" 3)]

/-- A registered device that favourites Pepper and has notifications enabled. -/
def pepperFavUser : UserData :=
  { favorite_items := ["Pepper"], favorite_weather_events := [],
    notification_settings := some { enabled := some true, sound := none },
    weatherNotificationSettings := none, eventNotificationSettings := none }

def pepperRestockItem : RestockedItem :=
  { name := "Pepper", quantity := 3, previousQuantity := 0, rarity := "Divine",
    rarityEmoji := "✨" }

def appleUserItem : UserRestockedItem :=
  { name := "Apple", quantity := 3, previousQuantity := 0, rarity := "Legendary",
    category := "seeds" }

/-- A registered device whose master notification switch is off. -/
def masterDisabledUser : UserData :=
  { favorite_items := [], favorite_weather_events := [],
    notification_settings := some { enabled := some false, sound := none },
    weatherNotificationSettings := none, eventNotificationSettings := none }

def exPreviousWeather : WeatherMap :=
  [("rain", { weatherName := "Rain", active := true, duration := 300 })]

def exCurrentWeather : WeatherMap :=
  [("rain", { weatherName := "Rain", active := false, duration := 0 }),
   ("snow", { weatherName := "Snow", active := true, duration := 600 })]

/-- A device wanting weather notifications in `all` mode, used to exercise the
two grouped weather sends. -/
def weatherAllUser : UserData :=
  { favorite_items := [], favorite_weather_events := [],
    notification_settings := some { enabled := some true, sound := none },
    weatherNotificationSettings := some { enabled := some true, mode := some "all" },
    eventNotificationSettings := none }

/-- A device configured for the 5-minutes-before event reminder. -/
def reminderFiveUser : UserData :=
  { favorite_items := [], favorite_weather_events := [],
    notification_settings := some { enabled := some true, sound := none },
    weatherNotificationSettings := none,
    eventNotificationSettings := some { enabled := none, reminder_minutes := some 5,
                                        sound := none } }

def exEvent : EventInfo := { name := "Harvest", correctedMinute := 10 }

def exEngineState : EngineState :=
  { stockItems := appleStock3 ++ carrotStock3, previousStockItems := [],
    weatherData := [], previousWeatherData := [] }

/-! ### Association-list lemmas -/

theorem mapGet_mapSet_self {α : Type} (m : List (String × α)) (k : String) (v : α) :
    mapGet (mapSet m k v) k = some v := by
  induction m with
  | nil => simp [mapGet, mapSet]
  | cons hd tl ih =>
      obtain ⟨k', v'⟩ := hd
      by_cases h : k' = k
      · simp [mapGet, mapSet, h]
      · simp [mapGet, mapSet, h, ih]

theorem mapGet_mapSet_ne {α : Type} (m : List (String × α)) (k k' : String) (v : α)
    (h : k ≠ k') : mapGet (mapSet m k v) k' = mapGet m k' := by
  induction m with
  | nil => simp [mapGet, mapSet, h]
  | cons hd tl ih =>
      obtain ⟨k₀, v₀⟩ := hd
      by_cases h₀ : k₀ = k
      · subst h₀; simp [mapGet, mapSet, h]
      · simp [mapGet, mapSet, h₀, ih]

theorem mapGet_append {α : Type} (m₁ m₂ : List (String × α)) (k : String) :
    mapGet (m₁ ++ m₂) k =
      match mapGet m₁ k with
      | some v => some v
      | none => mapGet m₂ k := by
  induction m₁ with
  | nil => simp [mapGet]
  | cons hd tl ih =>
      obtain ⟨k', v'⟩ := hd
      by_cases h : k' = k
      · simp [mapGet, h]
      · simp [mapGet, h, ih]

theorem truthyS_none : truthyS none = false := rfl

theorem mapGet_mem {α : Type} (m : List (String × α)) (k : String) (v : α)
    (h : mapGet m k = some v) : (k, v) ∈ m := by
  induction m with
  | nil => simp [mapGet] at h
  | cons hd tl ih =>
      obtain ⟨k', v'⟩ := hd
      by_cases hk : k' = k
      · subst hk
        simp [mapGet] at h
        subst h
        exact List.mem_cons_self _ _
      · simp [mapGet, hk] at h
        exact List.mem_cons_of_mem _ (ih h)

/-! ### Deduplication-gate lemmas -/

theorem ensureDevice_isSome (cache : DedupCache) (d : String) :
    (mapGet (ensureDevice cache d) d).isSome = true := by
  unfold ensureDevice
  by_cases h : (mapGet cache d).isSome
  · rwa [if_pos h]
  · rw [if_neg h, mapGet_mapSet_self]
    rfl

theorem ensureDevice_of_isSome {cache : DedupCache} {d : String}
    (h : (mapGet cache d).isSome = true) : ensureDevice cache d = cache := if_pos h

/-- After a successful category send at time `t`, the device's map records the
deduplication key at `t`. -/
theorem sendCategoryNotification_recorded {cache : DedupCache} {d c : String}
    {items : List UserRestockedItem} {t : Nat} {s : SentNotification}
    {cache' : DedupCache}
    (h : sendCategoryNotification cache d c items t = (some s, cache')) :
    (mapGet cache' d).isSome = true ∧
    mapGet ((mapGet cache' d).getD [])
      (categoryDedupKey c (items.map (·.name))) = some t := by
  unfold sendCategoryNotification at h
  split at h
  · exact absurd (congrArg Prod.fst h) (by simp)
  · rw [Prod.mk.injEq] at h
    obtain ⟨-, hc⟩ := h
    subst hc
    unfold recordCategorySend
    rw [mapGet_mapSet_self]
    exact ⟨rfl, by simpa using mapGet_mapSet_self _ _ t⟩

/-- A second attempt for the same key within the window is suppressed and the
cache is left untouched. -/
theorem sendCategoryNotification_suppressed {cache : DedupCache} {d c : String}
    {items : List UserRestockedItem} {t1 t2 : Nat}
    (hdev : (mapGet cache d).isSome = true)
    (hlast : mapGet ((mapGet cache d).getD [])
      (categoryDedupKey c (items.map (·.name))) = some t1)
    (hwin : t2 - t1 < DEDUPLICATION_WINDOW) :
    sendCategoryNotification cache d c items t2 = (none, cache) := by
  unfold sendCategoryNotification
  rw [ensureDevice_of_isSome hdev, hlast]
  simp [Option.any, hwin]

/-- An attempt for the same key at or past the window is sent. -/
theorem sendCategoryNotification_expired {cache : DedupCache} {d c : String}
    {items : List UserRestockedItem} {t1 t2 : Nat}
    (hdev : (mapGet cache d).isSome = true)
    (hlast : mapGet ((mapGet cache d).getD [])
      (categoryDedupKey c (items.map (·.name))) = some t1)
    (hwin : ¬(t2 - t1 < DEDUPLICATION_WINDOW)) :
    (sendCategoryNotification cache d c items t2).1.isSome = true := by
  unfold sendCategoryNotification
  rw [ensureDevice_of_isSome hdev, hlast]
  simp [Option.any, hwin]

/-! ### C1 — deduplication window semantics -/

/-- C1: after a category notification for a device and category signature is
recorded at `t1`, a second attempt for the same signature at `t2` is suppressed
— not sent and the cache left unchanged — when `t2 - t1 < window`, and is sent
when `t2 - t1 ≥ window`; the window is 5 minutes. -/
theorem C1_dedup_window_semantics (cache : DedupCache) (deviceToken category : String)
    (items : List UserRestockedItem) (t1 t2 : Nat) (s : SentNotification)
    (cache1 : DedupCache)
    (hrecorded : sendCategoryNotification cache deviceToken category items t1
      = (some s, cache1))
    (_horder : t1 ≤ t2) :
    DEDUPLICATION_WINDOW = 5 * 60 * 1000 ∧
    (t2 - t1 < DEDUPLICATION_WINDOW →
      sendCategoryNotification cache1 deviceToken category items t2 = (none, cache1)) ∧
    (DEDUPLICATION_WINDOW ≤ t2 - t1 →
      (sendCategoryNotification cache1 deviceToken category items t2).1.isSome = true) := by
  obtain ⟨hdev, hlast⟩ := sendCategoryNotification_recorded hrecorded
  exact ⟨rfl,
    fun hwin => sendCategoryNotification_suppressed hdev hlast hwin,
    fun hge => sendCategoryNotification_expired hdev hlast (by omega)⟩

/-- Witness for C1: a send at `t1 = 0` suppresses an identical attempt at
`t2 = 1000` (within the 5-minute window). -/
theorem C1_witness :
    DEDUPLICATION_WINDOW = 5 * 60 * 1000 ∧
    sendCategoryNotification [("d", [("seeds-Apple", 0)])] "d" "seeds"
        [appleUserItem] 1000 = (none, [("d", [("seeds-Apple", 0)])]) := by
  have h := C1_dedup_window_semantics [] "d" "seeds" [appleUserItem] 0 1000
    { kind := .categoryStock, device := "d", names := ["Apple"], badge := 1 }
    [("d", [("seeds-Apple", 0)])] (by decide) (by decide)
  exact ⟨h.1, h.2.1 (by decide)⟩

/-! ### C2 — Common-rarity suppression -/

/-- C2: for every item whose classified rarity is Common, the stock-change check
produces no notification entry for it — in either detection mode, for every pair
of snapshots and any quantity transition (including 0 → positive) — and the
restocked-items list is the same as if the item were not a favourite at all. -/
theorem C2_common_rarity_suppression (itemName : String)
    (hcommon : getItemRarity itemName = "Common") (checkAvailability : Bool)
    (stockItems previousStockItems : StockMap) (uniqueFavorites : List String) :
    stockChangeDecision checkAvailability stockItems previousStockItems itemName = none ∧
    restockedItemsFor checkAvailability stockItems previousStockItems uniqueFavorites =
      restockedItemsFor checkAvailability stockItems previousStockItems
        (uniqueFavorites.filter (fun f => !(f == itemName))) := by
  have hdec : stockChangeDecision checkAvailability stockItems previousStockItems itemName
      = none := by
    simp [stockChangeDecision, shouldSendNotificationForItem, hcommon, getRarityInfo]
  refine ⟨hdec, ?_⟩
  induction uniqueFavorites with
  | nil => rfl
  | cons x xs ih =>
      by_cases hx : x = itemName
      · subst hx
        simpa [restockedItemsFor, List.filterMap_cons, hdec] using ih
      · simp [restockedItemsFor, List.filterMap_cons, hx] at ih ⊢
        cases stockChangeDecision checkAvailability stockItems previousStockItems x with
        | none => simpa using ih
        | some r => simpa using ih

/-- Witness for C2 at Carrot (classified Common) on a 0 → 5 transition. -/
theorem C2_witness :
    stockChangeDecision false carrotStock5 carrotStock0 "Carrot" = none ∧
    restockedItemsFor false carrotStock5 carrotStock0 ["Carrot"] =
      restockedItemsFor false carrotStock5 carrotStock0
        (["Carrot"].filter (fun f => !(f == "Carrot"))) :=
  C2_common_rarity_suppression "Carrot" (by decide) false carrotStock5 carrotStock0 ["Carrot"]

/-! ### C4 — restock-without-change -/

/-- C4 counterexample: Carrot is favourited, in stock with an unchanged quantity
3 → 3 (so `currentQty > 0`), yet restock-mode detection emits no delta, because
the rarity filter runs first and Carrot is classified Common. -/
theorem C4_counterexample :
    ((mapGet carrotStock3 "Carrot").map (·.quantity)).getD 0 = 3 ∧
    restockedItemsFor false carrotStock3 carrotStock3 ["Carrot"] = [] := by decide

/-- C4 amended: in restock mode, for every favourited item that passes the
rarity filter (`shouldSendNotificationForItem` true, i.e. not classified
Common), a delta is emitted whenever `currentQty > 0`, even when the quantity is
unchanged from the previous snapshot. -/
theorem C4_amended_restock_without_change (stockItems previousStockItems : StockMap)
    (favoriteItem : String)
    (hrarity : shouldSendNotificationForItem favoriteItem = true)
    (hqty : 0 < ((mapGet stockItems favoriteItem).map (·.quantity)).getD 0) :
    (stockChangeDecision false stockItems previousStockItems favoriteItem).isSome = true := by
  simp only [stockChangeDecision, hrarity, Bool.not_true, Bool.false_eq_true, if_false,
    if_neg]
  simp [hqty]

/-- Witness for the amended C4: Apple (Legendary) with `previous = {Apple: 3}`
and `current = {Apple: 3}` still yields a delta. -/
theorem C4_witness :
    (stockChangeDecision false appleStock3 appleStock3 "Apple").isSome = true :=
  C4_amended_restock_without_change appleStock3 appleStock3 "Apple" (by decide) (by decide)

/-! ### C5 — disabled-device skip -/

/-- C5 counterexample: a device whose master `notification_settings.enabled` is
false (and with default event settings) still receives an event notification,
because the event path only consults `eventNotificationSettings`. -/
theorem C5_counterexample :
    notificationsEnabled masterDisabledUser = false ∧
    checkEventNotifications (some { name := "Harvest", correctedMinute := 0 })
        [("tok", masterDisabledUser)] 0 0 =
      [{ kind := .eventReminder, device := "tok", names := ["Harvest"], badge := 1 }] := by
  decide

/-- C5 amended: a device with `notification_settings.enabled` false is silently
skipped by the stock fan-out (category and premium sends, cache untouched) and
by the weather fan-out; event notifications are governed solely by
`eventNotificationSettings.enabled` and may still be sent to such a device. -/
theorem C5_amended_disabled_device_skip (deviceToken : String) (userData : UserData)
    (hdisabled : notificationsEnabled userData = false) (cache : DedupCache)
    (restockedItems : List RestockedItem) (stockItems : StockMap) (now : Nat)
    (weatherChanges : List WeatherChange) :
    sendStockNotificationsForUser cache deviceToken userData restockedItems stockItems now
      = ([], cache) ∧
    sendWeatherNotificationsForUser deviceToken userData weatherChanges = [] := by
  constructor
  · simp [sendStockNotificationsForUser, hdisabled]
  · simp [sendWeatherNotificationsForUser, hdisabled]

/-- Witness for the amended C5 at the concrete disabled device. -/
theorem C5_witness :
    sendStockNotificationsForUser [] "tok" masterDisabledUser [pepperRestockItem]
        pepperStockMap 0 = ([], []) ∧
    sendWeatherNotificationsForUser "tok" masterDisabledUser
        (checkWeatherChangesList exCurrentWeather exPreviousWeather) = [] :=
  C5_amended_disabled_device_skip "tok" masterDisabledUser (by decide) [] [pepperRestockItem]
    pepperStockMap 0 (checkWeatherChangesList exCurrentWeather exPreviousWeather)

/-! ### C8 — snapshot preserved on fetch failure -/

/-- C8: when the catalog fetch errors or returns an auth failure and the current
snapshot is non-empty, the snapshot swap leaves the current stock map exactly as
it was (same items, same quantities). -/
theorem C8_snapshot_preserved (state : EngineState) (outcome : StockFetchOutcome)
    (newWeatherData : WeatherMap)
    (hfail : outcome = .authFailure ∨ outcome = .fetchError)
    (hnonempty : state.stockItems ≠ []) :
    (updateStockDataSwap state outcome newWeatherData).stockItems = state.stockItems := by
  have hlen : state.stockItems.length > 0 := List.length_pos.mpr hnonempty
  rcases hfail with h | h <;> subst h <;>
    simp [updateStockDataSwap, fetchRealStockData, hlen]

/-- Witness for C8: a two-item snapshot survives a fetch error unchanged. -/
theorem C8_witness :
    (updateStockDataSwap exEngineState .fetchError []).stockItems =
      exEngineState.stockItems :=
  C8_snapshot_preserved exEngineState .fetchError [] (Or.inr rfl) (by decide)

/-! ### C3 — rarity resolution precedence -/

/-- C3 counterexample: on the always-shown path, an item with no override and no
upstream rarity is stored with a null rarity — the static name-based table
(which classifies Friendship Pot as Divine) and the Rare default are never
consulted there, contrary to the claimed precedence holding on every path. -/
theorem C3_counterexample :
    resolveAlwaysShownRarity [] "friendship_pot" none = none ∧
    specResolveRarity [] (some "friendship_pot") none "Friendship Pot" = "Divine" ∧
    resolveAlwaysShownRarity [] "friendship_pot" none ≠
      some (specResolveRarity [] (some "friendship_pot") none "Friendship Pot") := by
  decide

/-- C3 amended: the claimed precedence (override, else non-empty upstream, else
static table, else Rare) holds on every `processStockData` path; on the
always-shown path the last two steps are missing — the stored rarity is the
override when present, else the upstream rarity when truthy, else null. -/
theorem C3_amended_rarity_precedence (rarityFixes : List (String × String))
    (hfix : ∀ p ∈ rarityFixes, p.2 ≠ "")
    (itemId apiRarity : Option String) (displayName : String) :
    resolveStockRarity rarityFixes itemId apiRarity displayName =
      some (specResolveRarity rarityFixes itemId apiRarity displayName) ∧
    (∀ iid : String, ∀ apiR : Option String,
      resolveAlwaysShownRarity rarityFixes iid apiR =
        match mapGet rarityFixes iid with
        | some r => some r
        | none => if truthyS apiR then apiR else none) := by
  refine ⟨?_, ?_⟩
  · cases hov : itemId.bind (mapGet rarityFixes) with
    | none =>
        have hovr : getRarityOverride rarityFixes itemId = none := by
          simp [getRarityOverride, hov, jsOrS, truthyS]
        cases apiRarity with
        | none =>
            simp [resolveStockRarity, specResolveRarity, hov, hovr, jsOrS, truthyS]
        | some r =>
            by_cases hr : r = ""
            · subst hr
              simp [resolveStockRarity, specResolveRarity, hov, hovr, jsOrS, truthyS]
            · simp [resolveStockRarity, specResolveRarity, hov, hovr, jsOrS, truthyS, hr]
    | some r =>
        have hrne : r ≠ "" := by
          cases itemId with
          | none => simp at hov
          | some iid =>
              simp at hov
              exact hfix (iid, r) (mapGet_mem _ _ _ hov)
        have hovr : getRarityOverride rarityFixes itemId = some r := by
          simp [getRarityOverride, hov, jsOrS, truthyS, hrne]
        simp [resolveStockRarity, specResolveRarity, hov, hovr, jsOrS, truthyS, hrne]
  · intro iid apiR
    cases hov : mapGet rarityFixes iid with
    | some r =>
        have hrne : r ≠ "" := hfix (iid, r) (mapGet_mem _ _ _ hov)
        have hovr : getRarityOverride rarityFixes (some iid) = some r := by
          simp [getRarityOverride, hov, jsOrS, truthyS, hrne]
        simp [resolveAlwaysShownRarity, hovr, jsOrS, truthyS, hrne]
    | none =>
        have hovr : getRarityOverride rarityFixes (some iid) = none := by
          simp [getRarityOverride, hov, jsOrS, truthyS]
        cases hapi : truthyS apiR
        · simp [resolveAlwaysShownRarity, hovr, jsOrS, truthyS_none, hapi]
        · simp [resolveAlwaysShownRarity, hovr, jsOrS, truthyS_none, hapi]

/-- Witness for the amended C3: an override wins on the stock path. -/
theorem C3_witness :
    resolveStockRarity [("ember", "Mythical")] (some "ember") (some "Rare") "Ember Lily" =
      some (specResolveRarity [("ember", "Mythical")] (some "ember") (some "Rare")
        "Ember Lily") :=
  (C3_amended_rarity_precedence [("ember", "Mythical")] (by decide) (some "ember")
    (some "Rare") "Ember Lily").1

/-! ### C6 — premium/regular partition (counterexample) -/

/-- C6 counterexample: Pepper is a premium (Divine) seed per `isPremiumSeed`,
is the device's only matching restocked favourite, and notifications are
enabled — yet the fan-out produces a single grouped category notification and
no individual premium notification, because the partition filters on
`rarity === 'Common'` rather than on the premium tier. -/
theorem C6_counterexample :
    isPremiumSeed "Pepper" = true ∧ getItemRarity "Pepper" = "Divine" ∧
    (sendStockNotificationsForUser [] "tok" pepperFavUser [pepperRestockItem]
        pepperStockMap 0).1 =
      [{ kind := .categoryStock, device := "tok", names := ["Pepper"], badge := 1 }] := by
  decide

/-! ### C6 — premium/regular partition (amended) -/

theorem sendCategoryNotification_kind {cache : DedupCache} {d c : String}
    {items : List UserRestockedItem} {t : Nat} {s : SentNotification}
    {cache' : DedupCache}
    (h : sendCategoryNotification cache d c items t = (some s, cache')) :
    s.kind = NotifKind.categoryStock := by
  unfold sendCategoryNotification at h
  split at h
  · exact absurd (congrArg Prod.fst h) (by simp)
  · rw [Prod.mk.injEq] at h
    obtain ⟨hs, -⟩ := h
    injection hs with hs
    subst hs
    rfl

theorem categorySendFold_cons (d : String) (now : Nat)
    (g : String × List UserRestockedItem) (gs : List (String × List UserRestockedItem))
    (acc : List SentNotification × DedupCache) :
    categorySendFold d now (g :: gs) acc =
      categorySendFold d now gs
        (acc.1 ++ (sendCategoryNotification acc.2 d g.1 g.2 now).1.toList,
         (sendCategoryNotification acc.2 d g.1 g.2 now).2) := rfl

/-- Every notification the category loop emits is a grouped category one. -/
theorem categorySendFold_kinds (d : String) (now : Nat)
    (groups : List (String × List UserRestockedItem)) :
    ∀ acc : List SentNotification × DedupCache,
      (∀ n ∈ acc.1, n.kind = NotifKind.categoryStock) →
      ∀ n ∈ (categorySendFold d now groups acc).1, n.kind = NotifKind.categoryStock := by
  induction groups with
  | nil => intro acc hacc; exact hacc
  | cons g gs ih =>
      intro acc hacc
      rw [categorySendFold_cons]
      refine ih _ ?_
      intro n hn
      rcases List.mem_append.mp hn with hn | hn
      · exact hacc n hn
      · rcases hr : sendCategoryNotification acc.2 d g.1 g.2 now with ⟨o, c2⟩
        rw [hr] at hn
        cases o with
        | none => simp at hn
        | some s =>
            simp at hn
            subst hn
            exact sendCategoryNotification_kind hr

/-- The grouping `reduce`: the group stored under a category is exactly the
sublist of items of that category, in order. -/
theorem groupByCategory_fold_get (l : List UserRestockedItem) (c : String) :
    ∀ acc : List (String × List UserRestockedItem),
      mapGet (l.foldl (fun groups item =>
          match mapGet groups item.category with
          | some existing => mapSet groups item.category (existing ++ [item])
          | none => groups ++ [(item.category, [item])]) acc) c =
        (match mapGet acc c with
         | some e => some (e ++ l.filter (fun i => i.category == c))
         | none =>
            if (l.filter (fun i => i.category == c)).isEmpty then none
            else some (l.filter (fun i => i.category == c))) := by
  induction l with
  | nil =>
      intro acc
      cases h : mapGet acc c <;> simp [h]
  | cons x xs ih =>
      intro acc
      rw [List.foldl_cons, ih]
      by_cases hx : x.category = c
      · rw [List.filter_cons_of_pos (by simp [hx])]
        cases hacc : mapGet acc x.category with
        | some e =>
            simp only [hacc]
            rw [hx] at hacc
            rw [hx, mapGet_mapSet_self, hacc]
            simp
        | none =>
            simp only [hacc]
            rw [hx] at hacc
            rw [mapGet_append, hacc]
            simp [mapGet, hx]
      · rw [List.filter_cons_of_neg (by simp [hx])]
        cases hacc : mapGet acc x.category with
        | some e =>
            simp only [hacc]
            rw [mapGet_mapSet_ne _ _ _ _ hx]
        | none =>
            simp only [hacc]
            rw [mapGet_append]
            cases hc : mapGet acc c <;> simp [hc, mapGet, hx]

theorem groupByCategory_get (l : List UserRestockedItem) (c : String) :
    mapGet (groupByCategory l) c =
      if (l.filter (fun i => i.category == c)).isEmpty then none
      else some (l.filter (fun i => i.category == c)) := by
  have h := groupByCategory_fold_get l c []
  simpa [groupByCategory] using h

/-- The individual (premium-style) sends of the stock fan-out are exactly one
per Common-rarity matched item, independent of the deduplication cache. -/
theorem sendStockNotificationsForUser_premium (cache : DedupCache) (deviceToken : String)
    (userData : UserData) (restockedItems : List RestockedItem) (stockItems : StockMap)
    (now : Nat) :
    ((sendStockNotificationsForUser cache deviceToken userData restockedItems stockItems
        now).1.filter (fun n => n.kind == NotifKind.premiumSeed)) =
      (if notificationsEnabled userData then
        ((userRestockedItemsFor userData restockedItems stockItems).filter
          (fun i => i.rarity == "Common")).map (sendPremiumSeedNotification deviceToken)
       else []) := by
  cases hen : notificationsEnabled userData
  · simp [sendStockNotificationsForUser, hen]
  · rw [if_pos rfl]
    unfold sendStockNotificationsForUser
    rw [hen]
    simp only [Bool.not_true, Bool.false_eq_true, if_false]
    by_cases huri : (userRestockedItemsFor userData restockedItems stockItems).isEmpty
    · rw [if_pos huri]
      rw [List.isEmpty_iff] at huri
      simp [huri]
    · rw [if_neg huri]
      rw [List.filter_append]
      have hprem : (((userRestockedItemsFor userData restockedItems stockItems).filter
          (fun i => i.rarity == "Common")).map
            (sendPremiumSeedNotification deviceToken)).filter
          (fun n => n.kind == NotifKind.premiumSeed) =
          ((userRestockedItemsFor userData restockedItems stockItems).filter
            (fun i => i.rarity == "Common")).map (sendPremiumSeedNotification deviceToken) := by
        rw [List.filter_eq_self]
        intro n hn
        rcases List.mem_map.mp hn with ⟨i, -, hi⟩
        subst hi
        rfl
      have hcat : ((categorySendFold deviceToken now
          (groupByCategory ((userRestockedItemsFor userData restockedItems stockItems).filter
            (fun i => !(i.rarity == "Common")))) ([], cache)).1.filter
          (fun n => n.kind == NotifKind.premiumSeed)) = [] := by
        rw [List.filter_eq_nil_iff]
        intro n hn
        have hk := categorySendFold_kinds deviceToken now _ ([], cache) (by simp) n hn
        simp [hk]
      rw [hprem, hcat, List.append_nil]

/-- C6 amended: the partition key is `rarity === 'Common'`, not the premium
(Divine/Prismatic) tier: the individual sends are exactly one per Common-rarity
matched item, every non-Common item (premium seeds included) goes to its
category's group, and the group stored for a category holds exactly that
category's non-Common items. -/
theorem C6_amended_common_partition (cache : DedupCache) (deviceToken : String)
    (userData : UserData) (restockedItems : List RestockedItem) (stockItems : StockMap)
    (now : Nat) (c : String)
    (henabled : notificationsEnabled userData = true) :
    ((sendStockNotificationsForUser cache deviceToken userData restockedItems stockItems
        now).1.filter (fun n => n.kind == NotifKind.premiumSeed)) =
      (((userRestockedItemsFor userData restockedItems stockItems).filter
          (fun i => i.rarity == "Common")).map (sendPremiumSeedNotification deviceToken)) ∧
    mapGet (groupByCategory
        ((userRestockedItemsFor userData restockedItems stockItems).filter
          (fun i => !(i.rarity == "Common")))) c =
      (if (((userRestockedItemsFor userData restockedItems stockItems).filter
              (fun i => !(i.rarity == "Common"))).filter
            (fun i => i.category == c)).isEmpty then none
       else some (((userRestockedItemsFor userData restockedItems stockItems).filter
              (fun i => !(i.rarity == "Common"))).filter (fun i => i.category == c))) := by
  refine ⟨?_, groupByCategory_get _ c⟩
  rw [sendStockNotificationsForUser_premium, if_pos henabled]

/-- Witness for the amended C6 at the Pepper example: no individual sends, and
the seeds group holds exactly Pepper. -/
theorem C6_witness :
    ((sendStockNotificationsForUser [] "tok" pepperFavUser [pepperRestockItem]
        pepperStockMap 0).1.filter (fun n => n.kind == NotifKind.premiumSeed)) =
      (((userRestockedItemsFor pepperFavUser [pepperRestockItem] pepperStockMap).filter
          (fun i => i.rarity == "Common")).map (sendPremiumSeedNotification "tok")) ∧
    mapGet (groupByCategory
        ((userRestockedItemsFor pepperFavUser [pepperRestockItem] pepperStockMap).filter
          (fun i => !(i.rarity == "Common")))) "seeds" =
      (if (((userRestockedItemsFor pepperFavUser [pepperRestockItem] pepperStockMap).filter
              (fun i => !(i.rarity == "Common"))).filter
            (fun i => i.category == "seeds")).isEmpty then none
       else some (((userRestockedItemsFor pepperFavUser [pepperRestockItem]
              pepperStockMap).filter (fun i => !(i.rarity == "Common"))).filter
            (fun i => i.category == "seeds"))) :=
  C6_amended_common_partition [] "tok" pepperFavUser [pepperRestockItem] pepperStockMap 0
    "seeds" (by decide)

/-! ### C7 — weather delta emission order (counterexample) -/

/-- C7 counterexample: with Rain active before and gone inactive, and Snow newly
active, the change list holds the ended transition (isActive false, wasActive
true) before the became-active one — the list is in snapshot order, not
active-first. -/
theorem C7_counterexample :
    (checkWeatherChangesList exCurrentWeather exPreviousWeather).map
        (fun c => (c.isActive, c.wasActive)) = [(false, true), (true, false)] := by
  decide

/-- The grouped weather sends for one device are, in order: possibly one
active-weather notification, then possibly one ended-weather notification. -/
theorem weatherSendPair_kinds (deviceToken : String) (changes : List WeatherChange) :
    (weatherSendPair deviceToken changes).map (·.kind) ∈
      ([[], [NotifKind.weatherActive], [NotifKind.weatherEnded],
        [NotifKind.weatherActive, NotifKind.weatherEnded]] : List (List NotifKind)) := by
  unfold weatherSendPair
  by_cases ha : (changes.filter (·.isActive)).length > 0 <;>
    by_cases hi : (changes.filter (fun w => !w.isActive)).length > 0 <;>
      simp [ha, hi]

/-- C7 amended: the change list itself is in snapshot order, but at dispatch
each device's notifications are ordered active-first: the per-user weather
fan-out emits at most one active-weather notification followed by at most one
ended-weather notification, never an ended one before an active one. -/
theorem C7_amended_dispatch_order (deviceToken : String) (userData : UserData)
    (weatherChanges : List WeatherChange) :
    (sendWeatherNotificationsForUser deviceToken userData weatherChanges).map (·.kind) ∈
      ([[], [NotifKind.weatherActive], [NotifKind.weatherEnded],
        [NotifKind.weatherActive, NotifKind.weatherEnded]] : List (List NotifKind)) := by
  unfold sendWeatherNotificationsForUser
  dsimp only
  split
  · simp
  · split
    · simp
    · split
      · split
        · simp
        · split
          · simp
          · exact weatherSendPair_kinds _ _
      · exact weatherSendPair_kinds _ _

/-! ### C9 — event single-fire -/

theorem shouldCheckEvent_eq (em cm cs : Nat) :
    shouldCheckEvent em cm cs = (eventMinuteMatches em cm && decide (cs ≤ 30)) := by
  by_cases h : cs ≤ 30 <;> simp [shouldCheckEvent, eventMinuteMatches, h]

set_option maxHeartbeats 1000000 in
/-- For in-range minutes, the lead-offset minute check combined with the user's
reminder filter singles out exactly one minute of the hour. -/
theorem eventMinuteArith :
    ∀ em < 60, ∀ cm < 60, ∀ m ∈ ([0, 1, 2, 5, 10, 15] : List Nat),
      ((eventMinuteMatches em cm &&
          userWantsThisReminder m (minutesBeforeEvent em cm)) = true
        ↔ cm = (em + 60 - m) % 60) := by decide

/-- C9: with a device's event reminder set to `m` minutes (one of 0, 1, 2, 5,
10, 15) and event notifications enabled, a poll at minute `cm`, second `cs`
produces an event notification for that device iff `cm` is exactly the single
minute `eventMinute − m (mod 60)` and `cs` is within the first 30 seconds —
so the device fires at exactly one of the hour's lead-time checks per
occurrence, never at each of them. -/
theorem C9_event_single_fire (event : EventInfo) (deviceToken : String)
    (userData : UserData) (m : Nat) (hm : m ∈ ([0, 1, 2, 5, 10, 15] : List Nat))
    (hrm : userData.eventNotificationSettings.bind (·.reminder_minutes) = some m)
    (hen : (userData.eventNotificationSettings.bind (·.enabled)).getD true = true)
    (hem : event.correctedMinute < 60) (currentMinute currentSecond : Nat)
    (hcm : currentMinute < 60) :
    (checkEventNotifications (some event) [(deviceToken, userData)] currentMinute
        currentSecond ≠ []) ↔
      (currentMinute = (event.correctedMinute + 60 - m) % 60 ∧ currentSecond ≤ 30) := by
  have harith := eventMinuteArith event.correctedMinute hem currentMinute hcm m hm
  have hdecision : ∀ mb : Nat,
      sendEventNotificationForUser deviceToken userData event mb =
        (if userWantsThisReminder m mb then
          some { kind := .eventReminder, device := deviceToken,
                 names := [event.name], badge := 1 }
         else none) := by
    intro mb
    unfold sendEventNotificationForUser
    dsimp only
    rw [hrm, hen]
    cases hw : userWantsThisReminder m mb <;> simp [hw]
  have hck : checkEventNotifications (some event) [(deviceToken, userData)] currentMinute
      currentSecond =
      (if shouldCheckEvent event.correctedMinute currentMinute currentSecond then
        (sendEventNotificationForUser deviceToken userData event
          (minutesBeforeEvent event.correctedMinute currentMinute)).toList
       else []) := by
    unfold checkEventNotifications
    cases hsc : shouldCheckEvent event.correctedMinute currentMinute currentSecond <;>
      cases hd : sendEventNotificationForUser deviceToken userData event
        (minutesBeforeEvent event.correctedMinute currentMinute) <;>
        simp [hsc, hd]
  rw [hck, hdecision]
  constructor
  · intro h
    by_cases hsc : shouldCheckEvent event.correctedMinute currentMinute currentSecond
        = true
    · rw [if_pos hsc] at h
      rw [shouldCheckEvent_eq] at hsc
      simp only [Bool.and_eq_true, decide_eq_true_eq] at hsc
      obtain ⟨hmatch, h30⟩ := hsc
      by_cases hw : userWantsThisReminder m
          (minutesBeforeEvent event.correctedMinute currentMinute) = true
      · exact ⟨harith.mp (by rw [hmatch, hw]; rfl), h30⟩
      · rw [if_neg hw] at h
        simp at h
    · rw [if_neg hsc] at h
      simp at h
  · rintro ⟨hcmt, h30⟩
    have hb := harith.mpr hcmt
    simp only [Bool.and_eq_true] at hb
    obtain ⟨hmatch, hw⟩ := hb
    have hsc : shouldCheckEvent event.correctedMinute currentMinute currentSecond
        = true := by
      rw [shouldCheckEvent_eq, hmatch]
      simp [h30]
    rw [if_pos hsc, if_pos hw]
    simp

/-- Witness for C9: a device on the 5-minute reminder fires at minute 5 for an
event at minute 10. -/
theorem C9_witness :
    checkEventNotifications (some exEvent) [("tok", reminderFiveUser)] 5 0 ≠ [] :=
  (C9_event_single_fire exEvent "tok" reminderFiveUser 5 (by decide) rfl rfl
    (by decide) 5 0 (by decide)).mpr ⟨by decide, by decide⟩

/-! ### C10 — deduplication cache scope -/

/-- With no restocked items, the per-user stock fan-out sends nothing and the
cache is untouched. -/
theorem sendStockNotificationsForUser_nil (cache : DedupCache) (deviceToken : String)
    (userData : UserData) (stockItems : StockMap) (now : Nat) :
    sendStockNotificationsForUser cache deviceToken userData [] stockItems now
      = ([], cache) := by
  unfold sendStockNotificationsForUser userRestockedItemsFor
  cases hen : notificationsEnabled userData <;> simp [hen]

theorem dispatchCycle_stockFold_nil (users : List (String × UserData))
    (stockItems : StockMap) (now : Nat) :
    ∀ acc : List SentNotification × DedupCache,
      users.foldl (fun acc u =>
        let r := sendStockNotificationsForUser acc.2 u.1 u.2 [] stockItems now
        (acc.1 ++ r.1, r.2)) acc = acc := by
  induction users with
  | nil => intro acc; rfl
  | cons u us ih =>
      intro acc
      rw [List.foldl_cons, sendStockNotificationsForUser_nil]
      simpa using ih acc

/-- C10: only the grouped category stock sends consult and update the
deduplication cache — an identical immediate repeat of a successful category
send is suppressed, and the send stamps the device's key with the send time —
while the individual premium sends are independent of the cache state, and the
weather and event fan-out of a dispatch cycle neither reads the cache (its
output matches the one computed from an empty cache) nor writes it (the cycle
returns the cache unchanged). -/
theorem C10_dedup_scope :
    (∀ (cache : DedupCache) (deviceToken category : String)
        (items : List UserRestockedItem) (now : Nat) (s : SentNotification)
        (cache' : DedupCache),
      sendCategoryNotification cache deviceToken category items now = (some s, cache') →
      mapGet ((mapGet cache' deviceToken).getD [])
          (categoryDedupKey category (items.map (·.name))) = some now ∧
      sendCategoryNotification cache' deviceToken category items now = (none, cache')) ∧
    (∀ (cache₁ cache₂ : DedupCache) (deviceToken : String) (userData : UserData)
        (restockedItems : List RestockedItem) (stockItems : StockMap) (now : Nat),
      ((sendStockNotificationsForUser cache₁ deviceToken userData restockedItems
          stockItems now).1.filter (fun n => n.kind == NotifKind.premiumSeed)) =
      ((sendStockNotificationsForUser cache₂ deviceToken userData restockedItems
          stockItems now).1.filter (fun n => n.kind == NotifKind.premiumSeed))) ∧
    (∀ (cache : DedupCache) (users : List (String × UserData)) (stockItems : StockMap)
        (weatherChanges : List WeatherChange) (currentEvent : Option EventInfo)
        (currentMinute currentSecond now : Nat),
      dispatchCycle cache users [] stockItems weatherChanges currentEvent currentMinute
          currentSecond now =
        ((dispatchCycle [] users [] stockItems weatherChanges currentEvent currentMinute
            currentSecond now).1, cache)) := by
  refine ⟨?_, ?_, ?_⟩
  · intro cache deviceToken category items now s cache' h
    obtain ⟨hdev, hlast⟩ := sendCategoryNotification_recorded h
    refine ⟨hlast, ?_⟩
    refine sendCategoryNotification_suppressed hdev hlast ?_
    rw [Nat.sub_self]
    decide
  · intro cache₁ cache₂ deviceToken userData restockedItems stockItems now
    rw [sendStockNotificationsForUser_premium, sendStockNotificationsForUser_premium]
  · intro cache users stockItems weatherChanges currentEvent currentMinute currentSecond now
    unfold dispatchCycle
    dsimp only
    rw [dispatchCycle_stockFold_nil users stockItems now ([], cache),
        dispatchCycle_stockFold_nil users stockItems now ([], [])]

/-- Witness for C10: a concrete category send records the key and an identical
immediate repeat is suppressed. -/
theorem C10_witness :
    mapGet ((mapGet [("d", [("seeds-Apple", 7)])] "d").getD [])
        (categoryDedupKey "seeds" ([appleUserItem].map (·.name))) = some 7 ∧
    sendCategoryNotification [("d", [("seeds-Apple", 7)])] "d" "seeds"
        [appleUserItem] 7 = (none, [("d", [("seeds-Apple", 7)])]) :=
  C10_dedup_scope.1 [] "d" "seeds" [appleUserItem] 7
    { kind := .categoryStock, device := "d", names := ["Apple"], badge := 1 }
    [("d", [("seeds-Apple", 7)])] (by decide)

end GrowAGarden
